import Mathlib

set_option maxRecDepth 100000

/-!
Shallow embedding of the AutoParq parking engine (`src/parking_models.py`)
and proofs of the specification claims C1-C10.

Modelling conventions:
* `datetime` values are rationals counting hours since an arbitrary epoch;
  `datetime.now()` is passed explicitly as a `now` argument to every
  operation that reads the clock.
* Money amounts are rationals (rupees).  Python's `round(x, 2)` is modelled
  by `round2`; the tie-breaking rule (Python rounds half to even on floats)
  differs only at exact half-cent values, which no rule constant produces.
* `ParkingLot.slots` is a Python insertion-ordered dict; it is modelled as a
  `List Slot` in insertion order, and in-place mutation of a slot object is
  modelled as `List.set` at the slot's position.  Search helpers therefore
  return the position together with the slot.
* Python's stable `list.sort(key=...)` is modelled by `List.insertionSort`,
  which is also stable, so both produce the identical ordering.
* `uuid`-generated ticket ids are modelled as a caller-supplied abstract
  string field of `Vehicle`.
-/

namespace AutoParq

/-- `VehicleType` enum from the source. -/
inductive VehicleType where
  | SMALL
  | MEDIUM
  | LARGE
deriving DecidableEq, Repr

/-- `CustomerType` enum from the source. -/
inductive CustomerType where
  | REGULAR
  | VIP
deriving DecidableEq, Repr

/-- `Section` enum from the source (field name `sect` is used in structures
because `section` is a Lean keyword). -/
inductive Section where
  | REGULAR
  | VIP
  | EV
deriving DecidableEq, Repr

/-- Truncated integer part of a nonnegative rational (used by `round2`;
all fee values in the engine are nonnegative). -/
def round2 (q : ℚ) : ℚ := ((Int.floor (q * 100 + 1/2) : ℤ) : ℚ) / 100

namespace ParkingRules

/-- `ParkingRules.TIME_LIMITS`, in hours. -/
def TIME_LIMITS : CustomerType → ℚ
  | .REGULAR => 24
  | .VIP => 720

/-- `ParkingRules.DAILY_RATES`, in rupees. -/
def DAILY_RATES : VehicleType → ℚ
  | .SMALL => 50
  | .MEDIUM => 100
  | .LARGE => 150

/-- `ParkingRules.MONTHLY_MEMBERSHIP_RATES`: `round(rate * 30 * 0.7, 2)`. -/
def MONTHLY_MEMBERSHIP_RATES (vt : VehicleType) : ℚ :=
  round2 (DAILY_RATES vt * 30 * (7/10))

/-- `RE_ENTRY_RULES['max_re_entries']`. -/
def max_re_entries : Nat := 3

/-- `RE_ENTRY_RULES['re_entry_window']`, in hours. -/
def re_entry_window : ℚ := 24

/-- `RE_ENTRY_RULES['re_entry_fee']`, in rupees. -/
def re_entry_fee : ℚ := 20

/-- `RESTRICTIONS['max_overstay_penalty']`. -/
def max_overstay_penalty : ℚ := 500

/-- `RESTRICTIONS['penalty_per_hour']`. -/
def penalty_per_hour : ℚ := 25

end ParkingRules

/-- `Vehicle` from the source.  `ticket_id` is generated from a uuid in
Python; it is modelled as a constructor-supplied abstract string.  The purely
cosmetic fields `accessible_parking`, `ev_charging` and `reservation_id`
(never read by the engine) are omitted. -/
structure Vehicle where
  vehicle_type : VehicleType
  customer_type : CustomerType
  license_plate : String
  ticket_id : String
  allocation_time : Option ℚ := none
  re_entry_count : Nat := 0
  last_re_entry : Option ℚ := none
  total_overstay_penalty : ℚ := 0
  warnings_issued : Nat := 0
  is_suspended : Bool := false
  suspension_reason : String := ""
  parking_sessions : List (ℚ × ℚ × String) := []
  total_parking_time : ℚ := 0
  total_fees_paid : ℚ := 0
  vip_pass_expiry : Option ℚ := none
deriving DecidableEq, Repr

namespace Vehicle

/-- `Vehicle.can_re_enter`.  The Python method mutates
`self.re_entry_count`; the result is the returned Bool together with the
updated vehicle. -/
def can_re_enter (v : Vehicle) (now : ℚ) : Bool × Vehicle :=
  if v.re_entry_count ≥ ParkingRules.max_re_entries then
    (false, v)
  else
    let v' :=
      match v.last_re_entry with
      | some t =>
          if now - t > ParkingRules.re_entry_window then
            { v with re_entry_count := 0 }
          else v
      | none => v
    (!v'.is_suspended, v')

/-- `Vehicle.record_re_entry`. -/
def record_re_entry (v : Vehicle) (now : ℚ) : Vehicle :=
  { v with re_entry_count := v.re_entry_count + 1, last_re_entry := some now }

/-- `Vehicle.add_parking_session`. -/
def add_parking_session (v : Vehicle) (entry exit_t : ℚ) (slot_id : String) :
    Vehicle :=
  { v with
    parking_sessions := v.parking_sessions ++ [(entry, exit_t, slot_id)]
    total_parking_time := v.total_parking_time + (exit_t - entry) }

/-- `Vehicle.get_re_entry_fee`. -/
def get_re_entry_fee (v : Vehicle) : ℚ :=
  if v.re_entry_count > 0 then ParkingRules.re_entry_fee else 0

/-- `Vehicle.issue_warning`. -/
def issue_warning (v : Vehicle) : Vehicle :=
  let v' := { v with warnings_issued := v.warnings_issued + 1 }
  if v'.warnings_issued ≥ 3 then
    { v' with is_suspended := true, suspension_reason := "Multiple violations" }
  else v'

end Vehicle

/-- `Slot` from the source; `sect` is the `section` attribute. -/
structure Slot where
  id : String
  level : Nat
  sect : Section
  vehicle_type : VehicleType
  vehicle : Option Vehicle := none
  allocation_time : Option ℚ := none
  is_occupied : Bool := false
deriving DecidableEq, Repr

namespace Slot

/-- `Slot.allocate`: returns the Python Bool result together with the
updated slot (which also carries the mutated vehicle, whose
`allocation_time` is set to `now`). -/
def allocate (s : Slot) (v : Vehicle) (now : ℚ) : Bool × Slot :=
  if s.is_occupied then
    (false, s)
  else
    (true,
      { s with
        vehicle := some { v with allocation_time := some now }
        allocation_time := some now
        is_occupied := true })

/-- `Slot.release`: returns the parked vehicle and the updated slot.
The allocation timestamp is deliberately retained (source comment). -/
def release (s : Slot) : Option Vehicle × Slot :=
  if s.is_occupied then
    (s.vehicle, { s with vehicle := none, is_occupied := false })
  else
    (none, s)

/-- Python truthiness of the `vip_pass_expiry and now < expiry` test. -/
def passActive (v : Vehicle) (now : ℚ) : Bool :=
  match v.vip_pass_expiry with
  | some e => decide (now < e)
  | none => false

/-- `Slot.is_expired`.  An occupied slot with no bound vehicle would raise
in Python; that state is unreachable and modelled as not expired. -/
def is_expired (s : Slot) (now : ℚ) : Bool :=
  if s.is_occupied = false ∨ s.allocation_time = none then
    false
  else
    match s.allocation_time, s.vehicle with
    | some t0, some v =>
        if v.customer_type = CustomerType.VIP && passActive v now then
          false
        else
          let tl : ℚ := if v.customer_type = CustomerType.REGULAR then 24 else 720
          decide (now - t0 > tl)
    | _, _ => false

/-- `Slot.calculate_fee`.  An occupied slot with no bound vehicle would
raise in Python; that state is unreachable and modelled as fee 0. -/
def calculate_fee (s : Slot) (now : ℚ) : ℚ :=
  if s.is_occupied = false ∨ s.allocation_time = none then
    0
  else
    match s.allocation_time, s.vehicle with
    | some t0, some v =>
        let duration := now - t0
        let days_used : ℚ := max 1 (duration / 24)
        let daily_rate := ParkingRules.DAILY_RATES v.vehicle_type
        let base_fee : ℚ :=
          if v.customer_type = CustomerType.VIP && passActive v now then
            0
          else if v.customer_type = CustomerType.VIP then
            ParkingRules.MONTHLY_MEMBERSHIP_RATES v.vehicle_type
          else
            daily_rate * days_used
        let time_limit := ParkingRules.TIME_LIMITS v.customer_type
        let base_fee' :=
          if duration > time_limit then
            base_fee +
              min ((duration - time_limit) * ParkingRules.penalty_per_hour)
                ParkingRules.max_overstay_penalty
          else base_fee
        round2 base_fee'
    | _, _ => 0

end Slot

/-- The `ParkingLot` mutable state: the insertion-ordered slot dict as a
list, and the `vip_passes` dict (license plate → expiry) as an
insertion-ordered association list.  The `threading.RLock` serializes the
Python operations; in this sequential embedding every operation is a pure
state transformer, which is exactly the behaviour the lock guarantees. -/
structure ParkingLot where
  slots : List Slot
  vip_passes : List (String × ℚ)
deriving DecidableEq, Repr

namespace ParkingLot

/-- Two-digit zero-padded index, as in the Python f-string `{i+1:02d}`. -/
def pad2 (n : Nat) : String :=
  if n < 10 then "0" ++ toString n else "" ++ toString n

/-- First letter of `vehicle_type.value` used in slot ids. -/
def vtLetter : VehicleType → String
  | .SMALL => "S"
  | .MEDIUM => "M"
  | .LARGE => "L"

/-- The slots one `for vehicle_type in VehicleType` loop creates for a
given level, section letter, section and per-type count. -/
def sectionSlots (level : Nat) (letter : String) (sec : Section)
    (count : Nat) : List Slot :=
  [VehicleType.SMALL, VehicleType.MEDIUM, VehicleType.LARGE].flatMap
    fun vt =>
      (List.range count).map fun i =>
        { id := letter ++ toString level ++ vtLetter vt ++ pad2 (i + 1)
          level := level
          sect := sec
          vehicle_type := vt : Slot }

/-- The slots `ParkingLot.__init__` creates for one level:
Regular 15, VIP 10, EV 6 per vehicle type. -/
def levelSlots (level : Nat) : List Slot :=
  sectionSlots level "R" Section.REGULAR 15 ++
    sectionSlots level "V" Section.VIP 10 ++
    sectionSlots level "E" Section.EV 6

/-- `ParkingLot.__init__`: 186 slots over levels 1 and 2, empty pass
registry. -/
def init : ParkingLot :=
  { slots := levelSlots 1 ++ levelSlots 2
    vip_passes := [] }

/-- Comparison used to model `section_slots.sort(key=lambda s: s.level)`
on position-tagged slots. -/
def levelLe (a b : Nat × Slot) : Prop := a.2.level ≤ b.2.level

instance : DecidableRel levelLe := fun a b => Nat.decLe a.2.level b.2.level

instance : IsTotal (Nat × Slot) levelLe := ⟨fun x y => Nat.le_total x.2.level y.2.level⟩

instance : IsTrans (Nat × Slot) levelLe := ⟨fun _ _ _ => Nat.le_trans⟩

/-- The list comprehension in `_find_slot_in_section`: unoccupied slots of
the section matching the vehicle type, tagged with their position in the
pool (Python works with object identity; the position plays that role). -/
def sectionCandidates (slots : List Slot) (vt : VehicleType)
    (sec : Section) : List (Nat × Slot) :=
  slots.enum.filter fun p =>
    decide (p.2.sect = sec) && decide (p.2.vehicle_type = vt) &&
      !p.2.is_occupied

/-- `ParkingLot._find_slot_in_section`: sort the candidates by level with a
stable sort (all three section branches sort by level) and return the
first, if any. -/
def find_slot_in_section (slots : List Slot) (vt : VehicleType)
    (sec : Section) : Option (Nat × Slot) :=
  (List.insertionSort levelLe (sectionCandidates slots vt sec)).head?

/-- The `preferred_sections` list computed by `find_slot`. -/
def preferredSections (ct : CustomerType) (is_ev : Bool) : List Section :=
  if is_ev then [Section.EV]
  else if ct = CustomerType.VIP then [Section.VIP]
  else [Section.REGULAR]

/-- The `fallback_sections` list computed by `find_slot`. -/
def fallbackSections (ct : CustomerType) (is_ev : Bool) : List Section :=
  if is_ev then
    if ct = CustomerType.VIP then [Section.VIP, Section.REGULAR]
    else [Section.REGULAR, Section.VIP]
  else if ct = CustomerType.VIP then [Section.REGULAR, Section.EV]
  else [Section.EV, Section.VIP]

/-- The two sequential `for section in ...` loops of `find_slot`, run on
the concatenated section list. -/
def searchSections (slots : List Slot) (vt : VehicleType) :
    List Section → Option (Nat × Slot)
  | [] => none
  | sec :: rest =>
      match find_slot_in_section slots vt sec with
      | some r => some r
      | none => searchSections slots vt rest

/-- `ParkingLot.find_slot`. -/
def find_slot (lot : ParkingLot) (vt : VehicleType) (ct : CustomerType)
    (is_ev : Bool) : Option (Nat × Slot) :=
  searchSections lot.slots vt (preferredSections ct is_ev ++ fallbackSections ct is_ev)

/-- `ParkingLot.allocate_slot`: find a slot, then `slot.allocate(vehicle)`;
the state change is the in-place mutation of the found slot object. -/
def allocate_slot (lot : ParkingLot) (v : Vehicle) (is_ev : Bool)
    (now : ℚ) : Option (Nat × Slot) × ParkingLot :=
  match lot.find_slot v.vehicle_type v.customer_type is_ev with
  | none => (none, lot)
  | some (i, s) =>
      match s.allocate v now with
      | (false, _) => (none, lot)
      | (true, s') => (some (i, s'), { lot with slots := lot.slots.set i s' })

/-- The linear scan shared by `release_slot` and `get_slot_by_ticket`:
first occupied slot whose bound vehicle's ticket matches.  An occupied
slot with no bound vehicle would raise in Python; it never matches here. -/
def findTicketIdx (slots : List Slot) (ticket : String) :
    Option (Nat × Slot) :=
  slots.enum.find? fun p =>
    p.2.is_occupied &&
      match p.2.vehicle with
      | some v => decide (v.ticket_id = ticket)
      | none => false

/-- `ParkingLot.release_slot`: unbind the matching slot (keeping its
allocation timestamp) and return it; `None` and no state change when the
ticket is not bound. -/
def release_slot (lot : ParkingLot) (ticket : String) :
    Option Slot × ParkingLot :=
  match findTicketIdx lot.slots ticket with
  | none => (none, lot)
  | some (i, s) =>
      let s' := (s.release).2
      (some s', { lot with slots := lot.slots.set i s' })

/-- `ParkingLot.get_slot_by_ticket` (read only); the position tag stands
for the returned object's identity. -/
def get_slot_by_ticket (lot : ParkingLot) (ticket : String) :
    Option (Nat × Slot) :=
  findTicketIdx lot.slots ticket

/-- `len(self.slots)` as used by `get_system_status`. -/
def total_slots (lot : ParkingLot) : Nat := lot.slots.length

/-- `len(self.get_occupied_slots())`. -/
def occupied_slots_count (lot : ParkingLot) : Nat :=
  (lot.slots.filter fun s => s.is_occupied).length

/-- `available_slots` as computed by `get_system_status`:
`len(self.slots) - len(occupied_slots)`. -/
def available_slots (lot : ParkingLot) : Nat :=
  lot.total_slots - lot.occupied_slots_count

/-- One cell of `get_available_slots_count`: unoccupied slots of the given
vehicle type and section. -/
def get_available_slots_count (lot : ParkingLot) (vt : VehicleType)
    (sec : Section) : Nat :=
  (lot.slots.filter fun s =>
    decide (s.vehicle_type = vt) && decide (s.sect = sec) &&
      !s.is_occupied).length

/-- Occupied slots of a (vehicle type, section) partition (the complement
of `get_available_slots_count` within the partition). -/
def partition_occupied (lot : ParkingLot) (vt : VehicleType)
    (sec : Section) : Nat :=
  (lot.slots.filter fun s =>
    decide (s.vehicle_type = vt) && decide (s.sect = sec) &&
      s.is_occupied).length

/-- Size of a (vehicle type, section) partition. -/
def partition_total (lot : ParkingLot) (vt : VehicleType)
    (sec : Section) : Nat :=
  (lot.slots.filter fun s =>
    decide (s.vehicle_type = vt) && decide (s.sect = sec)).length

/-- Time of day in hours, modelling `now.strftime('%H:%M')`; comparing the
zero-padded `HH:MM` strings lexicographically is the same as comparing
times of day numerically. -/
def timeOfDay (now : ℚ) : ℚ := now - 24 * ((Int.floor (now / 24) : ℤ) : ℚ)

/-- `ParkingLot.check_peak_hour_restrictions`
(`commercial_vehicle_restrictions` is `True` in the rule table; windows are
`09:00-11:00` and `17:00-19:00`, bounds inclusive). -/
def check_peak_hour_restrictions (vt : VehicleType) (now : ℚ) : Bool :=
  let tod := timeOfDay now
  ((decide ((9:ℚ) ≤ tod) && decide (tod ≤ 11)) ||
      (decide ((17:ℚ) ≤ tod) && decide (tod ≤ 19))) &&
    decide (vt = VehicleType.LARGE)

/-- `ParkingLot.validate_vehicle_entry`: result flag, reason string, and the
vehicle (possibly updated by `can_re_enter`'s counter reset). -/
def validate_vehicle_entry (lot : ParkingLot) (v : Vehicle) (now : ℚ) :
    Bool × String × Vehicle :=
  if v.is_suspended then
    (false, "Vehicle suspended: " ++ v.suspension_reason, v)
  else if check_peak_hour_restrictions v.vehicle_type now then
    (false, "Large vehicles restricted during peak hours", v)
  else
    match v.can_re_enter now with
    | (false, v') => (false, "Maximum re-entries exceeded", v')
    | (true, v') =>
        if v'.customer_type = CustomerType.REGULAR &&
            lot.slots.any (fun s =>
              s.is_occupied &&
                match s.vehicle with
                | some w => decide (w.license_plate = v'.license_plate)
                | none => false) then
          (false, "Vehicle already parked", v')
        else
          (true, "Entry allowed", v')

end ParkingLot

/-- The result dict of `process_vehicle_exit` in the success case
(`success: False` is modelled as `none`). -/
structure ExitResult where
  vehicle : Vehicle
  slot : Option Slot
  base_fee : ℚ
  re_entry_fee : ℚ
  total_fee : ℚ
  overstay : Bool
  warnings : Nat
  exit_time : ℚ
deriving DecidableEq, Repr

namespace ParkingLot

/-- `ParkingLot.process_vehicle_exit`.  An occupied slot with no bound
vehicle, or with no allocation timestamp, would raise in Python; both are
unreachable and modelled as failure resp. a zero-length session. -/
def process_vehicle_exit (lot : ParkingLot) (ticket : String) (now : ℚ) :
    Option ExitResult × ParkingLot :=
  match lot.get_slot_by_ticket ticket with
  | none => (none, lot)
  | some (_, s) =>
      match s.vehicle with
      | none => (none, lot)
      | some v =>
          let fee := s.calculate_fee now
          let re_fee := v.get_re_entry_fee
          let total := fee + re_fee
          let is_over := s.is_expired now
          let v1 := if is_over then v.issue_warning else v
          let v2 := v1.add_parking_session (s.allocation_time.getD now) now s.id
          let v3 := { v2 with total_fees_paid := v2.total_fees_paid + total }
          let r := lot.release_slot ticket
          (some { vehicle := v3
                  slot := r.1
                  base_fee := fee
                  re_entry_fee := re_fee
                  total_fee := total
                  overstay := is_over
                  warnings := v3.warnings_issued
                  exit_time := now }, r.2)

/-- Lookup in the `vip_passes` dict. -/
def lookup_pass (ps : List (String × ℚ)) (plate : String) : Option ℚ :=
  (ps.find? fun q => q.1 == plate).map (·.2)

/-- Dict assignment `vip_passes[plate] = e`: overwrite in place, or append
a new entry. -/
def set_pass (ps : List (String × ℚ)) (plate : String) (e : ℚ) :
    List (String × ℚ) :=
  if ps.any (fun q => q.1 == plate) then
    ps.map fun q => if q.1 == plate then (plate, e) else q
  else
    ps ++ [(plate, e)]

/-- Modelled from the spec: the membership duration, "30 days (e.g.)", in
hours.  The constant lives in the application layer, which is not under
`src/`. -/
def MEMBERSHIP_DURATION : ℚ := 720

/-- Modelled from the spec: the pass create/refresh step of §4.4, which in
the repository lives in the application layer calling `allocate_slot` and
is not under `src/` (only the `vip_passes` registry itself is declared
there, in `ParkingLot.__init__`): "A pass is created/refreshed the moment a
Member-tier allocation succeeds for an identifier with no pass or an
expired one: expiry := now + membership duration". -/
def refresh_vip_pass (lot : ParkingLot) (plate : String) (now : ℚ) :
    ParkingLot :=
  match lookup_pass lot.vip_passes plate with
  | some e =>
      if now < e then lot
      else { lot with vip_passes := set_pass lot.vip_passes plate (now + MEMBERSHIP_DURATION) }
  | none =>
      { lot with vip_passes := set_pass lot.vip_passes plate (now + MEMBERSHIP_DURATION) }

/-- Modelled from the spec: a Member-tier allocation as performed by the
application layer — `allocate_slot` followed, on success and for Member
tier, by the pass create/refresh step of §4.4. -/
def member_allocate (lot : ParkingLot) (v : Vehicle) (is_ev : Bool)
    (now : ℚ) : Option (Nat × Slot) × ParkingLot :=
  match lot.allocate_slot v is_ev now with
  | (none, lot') => (none, lot')
  | (some r, lot') =>
      if v.customer_type = CustomerType.VIP then
        (some r, refresh_vip_pass lot' v.license_plate now)
      else
        (some r, lot')

end ParkingLot

/-- The construction-time attributes of a slot; everything except the
mutable occupancy fields. -/
def staticPart (s : Slot) : String × Nat × Section × VehicleType :=
  (s.id, s.level, s.sect, s.vehicle_type)

/-- States reachable from the freshly constructed lot by any sequence of
`allocate_slot`, `release_slot` and `process_vehicle_exit` calls (the query
operations are embedded as pure functions and do not change the state). -/
inductive Reach : ParkingLot → Prop where
  | init : Reach ParkingLot.init
  | alloc (lot : ParkingLot) (v : Vehicle) (is_ev : Bool) (now : ℚ) :
      Reach lot → Reach (lot.allocate_slot v is_ev now).2
  | rel (lot : ParkingLot) (t : String) :
      Reach lot → Reach (lot.release_slot t).2
  | exits (lot : ParkingLot) (t : String) (now : ℚ) :
      Reach lot → Reach (lot.process_vehicle_exit t now).2

/-- The request record `v` is not currently bound to any occupied slot
(its ticket is fresh for this state). -/
def freshTicket (lot : ParkingLot) (v : Vehicle) : Prop :=
  ∀ s ∈ lot.slots, s.is_occupied = true →
    s.vehicle.map Vehicle.ticket_id ≠ some v.ticket_id

/-- Reachability when every `allocate_slot` call is given a request record
that is not already bound to an occupied slot (each parking request
constructs a fresh `Vehicle`, whose uuid ticket is new). -/
inductive ReachFresh : ParkingLot → Prop where
  | init : ReachFresh ParkingLot.init
  | alloc (lot : ParkingLot) (v : Vehicle) (is_ev : Bool) (now : ℚ) :
      freshTicket lot v → ReachFresh lot →
      ReachFresh (lot.allocate_slot v is_ev now).2
  | rel (lot : ParkingLot) (t : String) :
      ReachFresh lot → ReachFresh (lot.release_slot t).2
  | exits (lot : ParkingLot) (t : String) (now : ℚ) :
      ReachFresh lot → ReachFresh (lot.process_vehicle_exit t now).2

/-- Exclusivity: every occupied slot binds a record, and two occupied slots
binding records with the same ticket (record identity is the ticket id,
generated uniquely per record) are the same slot. -/
def ExclusiveState (lot : ParkingLot) : Prop :=
  (∀ (k : Nat) (sk : Slot), lot.slots[k]? = some sk →
      sk.is_occupied = true → sk.vehicle ≠ none) ∧
    ∀ (i j : Nat) (si sj : Slot) (vi vj : Vehicle),
      lot.slots[i]? = some si → lot.slots[j]? = some sj →
      si.is_occupied = true → sj.is_occupied = true →
      si.vehicle = some vi → sj.vehicle = some vj →
      vi.ticket_id = vj.ticket_id → i = j

/-- The priority/fallback table exactly as the claim states it, written
independently of `find_slot`. -/
def specSectionOrder (is_ev : Bool) (ct : CustomerType) : List Section :=
  match is_ev, ct with
  | true, .VIP => [.EV, .VIP, .REGULAR]
  | true, .REGULAR => [.EV, .REGULAR, .VIP]
  | false, .VIP => [.VIP, .REGULAR, .EV]
  | false, .REGULAR => [.REGULAR, .EV, .VIP]

/-! Concrete inputs used by counterexamples and witnesses. -/

/-- A Standard-tier Small request record. -/
def vSmallStd : Vehicle :=
  { vehicle_type := .SMALL
    customer_type := .REGULAR
    license_plate := "KA01AB1234"
    ticket_id := "T1" }

/-- The fresh lot after allocating `vSmallStd` once. -/
def stA1 : ParkingLot := (ParkingLot.init.allocate_slot vSmallStd false 5).2

/-- `stA1` after passing the *same* record to `allocate_slot` again. -/
def stA2 : ParkingLot := (stA1.allocate_slot vSmallStd false 6).2

/-- Number of occupied slots whose bound record carries ticket `t`. -/
def boundCount (lot : ParkingLot) (t : String) : Nat :=
  (lot.slots.filter fun s =>
    s.is_occupied &&
      match s.vehicle with
      | some w => decide (w.ticket_id = t)
      | none => false).length

/-- A Standard/Medium record as in scenario C. -/
def c4vehicle : Vehicle :=
  { vehicle_type := .MEDIUM
    customer_type := .REGULAR
    license_plate := "MH02XY9"
    ticket_id := "T4"
    allocation_time := some 0 }

/-- A slot allocated to `c4vehicle` at time 0. -/
def c4slot : Slot :=
  { id := "R1M01"
    level := 1
    sect := .REGULAR
    vehicle_type := .MEDIUM
    vehicle := some c4vehicle
    allocation_time := some 0
    is_occupied := true }

/-- A Member-tier Medium record whose pass expires at time 1. -/
def c7vehicle : Vehicle :=
  { vehicle_type := .MEDIUM
    customer_type := .VIP
    license_plate := "DL03Z"
    ticket_id := "T7"
    allocation_time := some 0
    vip_pass_expiry := some 1 }

/-- A slot allocated to `c7vehicle` at time 0, while its pass (expiry 1)
was still active. -/
def c7slot : Slot :=
  { id := "V1M01"
    level := 1
    sect := .VIP
    vehicle_type := .MEDIUM
    vehicle := some c7vehicle
    allocation_time := some 0
    is_occupied := true }

/-- A Member-tier record with a pass active until time 2. -/
def c7wVehicle : Vehicle :=
  { vehicle_type := .SMALL
    customer_type := .VIP
    license_plate := "DL04Z"
    ticket_id := "T7W"
    allocation_time := some 0
    vip_pass_expiry := some 2 }

/-- A slot allocated to `c7wVehicle` at time 0. -/
def c7wSlot : Slot :=
  { id := "V1S01"
    level := 1
    sect := .VIP
    vehicle_type := .SMALL
    vehicle := some c7wVehicle
    allocation_time := some 0
    is_occupied := true }

/-- A vehicle at the re-entry maximum whose last re-entry (time 0) is more
than the 24-hour window before the current time 25. -/
def c5vehicle : Vehicle :=
  { vehicle_type := .SMALL
    customer_type := .REGULAR
    license_plate := "TN05Q"
    ticket_id := "T5"
    re_entry_count := 3
    last_re_entry := some 0 }

/-- A Member-tier record used for the pass-lifecycle claim. -/
def c6vehicle : Vehicle :=
  { vehicle_type := .MEDIUM
    customer_type := .VIP
    license_plate := "KA06VIP"
    ticket_id := "T6" }

/-- A two-slot pool listing the level-2 slot before the level-1 slot, so
that the level tie-break is observable. -/
def c8lot : ParkingLot :=
  { slots :=
      [{ id := "R2S01", level := 2, sect := .REGULAR, vehicle_type := .SMALL },
       { id := "R1S01", level := 1, sect := .REGULAR, vehicle_type := .SMALL }]
    vip_passes := [] }

/-- The level-1 slot of `c8lot`. -/
def c8low : Slot :=
  { id := "R1S01", level := 1, sect := .REGULAR, vehicle_type := .SMALL }

/-- The level-2 slot of `c8lot`. -/
def c8high : Slot :=
  { id := "R2S01", level := 2, sect := .REGULAR, vehicle_type := .SMALL }

/-- `stA1` after releasing ticket `T1`: the slot bound to `vSmallStd` has
been released, so `T1` is no longer bound anywhere. -/
def stRel : ParkingLot := (stA1.release_slot "T1").2

/-- The slot holding `vSmallStd` inside `stA1` (allocation time 5). -/
def c10slot : Slot :=
  { id := "R1S01"
    level := 1
    sect := .REGULAR
    vehicle_type := .SMALL
    vehicle := some { vSmallStd with allocation_time := some 5 }
    allocation_time := some 5
    is_occupied := true }

/-! Helper lemmas. -/

theorem map_set_congr {α β : Type _} (f : α → β) :
    ∀ (l : List α) (i : Nat) (x y : α), l[i]? = some x → f y = f x →
      (l.set i y).map f = l.map f
  | [], i, _, _, hx, _ => by simp at hx
  | a :: l, 0, x, y, hx, hf => by
      simp only [List.getElem?_cons_zero, Option.some.injEq] at hx
      subst hx
      simp [hf]
  | a :: l, i + 1, x, y, hx, hf => by
      simp only [List.getElem?_cons_succ] at hx
      simp only [List.set_cons_succ, List.map_cons]
      rw [map_set_congr f l i x y hx hf]

theorem length_filter_and_split {α : Type _} (p q : α → Bool) (l : List α) :
    (l.filter fun a => p a && q a).length +
        (l.filter fun a => p a && !q a).length = (l.filter p).length := by
  induction l with
  | nil => simp
  | cons a l ih =>
      cases hp : p a <;> cases hq : q a <;>
        simp [List.filter_cons, hp, hq] <;> omega

theorem sectionCandidates_mem {slots : List Slot} {vt : VehicleType}
    {sec : Section} {p : Nat × Slot} :
    p ∈ ParkingLot.sectionCandidates slots vt sec ↔
      slots[p.1]? = some p.2 ∧ p.2.sect = sec ∧ p.2.vehicle_type = vt ∧
        p.2.is_occupied = false := by
  unfold ParkingLot.sectionCandidates
  rw [List.mem_filter, List.mem_enum_iff_getElem?]
  simp [Bool.and_eq_true, and_assoc]

theorem find_slot_in_section_none {slots : List Slot} {vt : VehicleType}
    {sec : Section} :
    ParkingLot.find_slot_in_section slots vt sec = none ↔
      ∀ s ∈ slots, s.sect = sec → s.vehicle_type = vt →
        s.is_occupied = true := by
  unfold ParkingLot.find_slot_in_section
  rw [List.head?_eq_none_iff]
  constructor
  · intro h s hs hsec hvt
    by_contra hocc
    rw [Bool.not_eq_true] at hocc
    obtain ⟨i, hi⟩ := List.mem_iff_getElem?.mp hs
    have hm : (i, s) ∈ ParkingLot.sectionCandidates slots vt sec :=
      sectionCandidates_mem.mpr ⟨hi, hsec, hvt, hocc⟩
    have hm' := (List.perm_insertionSort ParkingLot.levelLe
      (ParkingLot.sectionCandidates slots vt sec)).mem_iff.mpr hm
    rw [h] at hm'
    simp at hm'
  · intro h
    have hc : ParkingLot.sectionCandidates slots vt sec = [] := by
      rw [List.eq_nil_iff_forall_not_mem]
      intro p hp
      obtain ⟨hi, hsec, hvt, hocc⟩ := sectionCandidates_mem.mp hp
      have hmem : p.2 ∈ slots := List.mem_iff_getElem?.mpr ⟨p.1, hi⟩
      rw [h p.2 hmem hsec hvt] at hocc
      cases hocc
    rw [hc]
    rfl

theorem find_slot_in_section_some {slots : List Slot} {vt : VehicleType}
    {sec : Section} {i : Nat} {s : Slot}
    (h : ParkingLot.find_slot_in_section slots vt sec = some (i, s)) :
    slots[i]? = some s ∧ s.sect = sec ∧ s.vehicle_type = vt ∧
      s.is_occupied = false ∧
      ∀ q ∈ ParkingLot.sectionCandidates slots vt sec, s.level ≤ q.2.level := by
  unfold ParkingLot.find_slot_in_section at h
  obtain ⟨ys, hys⟩ := List.head?_eq_some_iff.mp h
  have hmem : (i, s) ∈ ParkingLot.sectionCandidates slots vt sec :=
    (List.perm_insertionSort ParkingLot.levelLe _).mem_iff.mp
      (by rw [hys]; exact List.mem_cons_self _ _)
  obtain ⟨h1, h2, h3, h4⟩ := sectionCandidates_mem.mp hmem
  refine ⟨h1, h2, h3, h4, ?_⟩
  intro q hq
  have hsorted := List.sorted_insertionSort ParkingLot.levelLe
    (ParkingLot.sectionCandidates slots vt sec)
  have hqs : q ∈ List.insertionSort ParkingLot.levelLe
      (ParkingLot.sectionCandidates slots vt sec) :=
    (List.perm_insertionSort ParkingLot.levelLe _).mem_iff.mpr hq
  rw [hys] at hqs hsorted
  rcases List.mem_cons.mp hqs with rfl | hq'
  · exact Nat.le_refl _
  · exact (List.sorted_cons.mp hsorted).1 q hq'

theorem searchSections_none {slots : List Slot} {vt : VehicleType}
    {L : List Section} :
    ParkingLot.searchSections slots vt L = none ↔
      ∀ sec ∈ L, ParkingLot.find_slot_in_section slots vt sec = none := by
  induction L with
  | nil => simp [ParkingLot.searchSections]
  | cons sec rest ih =>
      simp only [ParkingLot.searchSections]
      cases h : ParkingLot.find_slot_in_section slots vt sec with
      | some r => simp [h]
      | none => simp [h, ih]

theorem searchSections_some {slots : List Slot} {vt : VehicleType} :
    ∀ {L : List Section} {i : Nat} {s : Slot},
      ParkingLot.searchSections slots vt L = some (i, s) →
        ∃ sec ∈ L, ParkingLot.find_slot_in_section slots vt sec = some (i, s)
  | [], _, _, h => by simp [ParkingLot.searchSections] at h
  | sec :: rest, i, s, h => by
      simp only [ParkingLot.searchSections] at h
      cases hf : ParkingLot.find_slot_in_section slots vt sec with
      | some r =>
          rw [hf] at h
          exact ⟨sec, List.mem_cons_self _ _, hf.trans h⟩
      | none =>
          rw [hf] at h
          obtain ⟨sec', hmem, hfs⟩ := searchSections_some (L := rest) h
          exact ⟨sec', List.mem_cons_of_mem _ hmem, hfs⟩

theorem find_slot_some {lot : ParkingLot} {vt : VehicleType}
    {ct : CustomerType} {ev : Bool} {i : Nat} {s : Slot}
    (h : lot.find_slot vt ct ev = some (i, s)) :
    lot.slots[i]? = some s ∧ s.vehicle_type = vt ∧ s.is_occupied = false ∧
      ∀ q ∈ ParkingLot.sectionCandidates lot.slots vt s.sect,
        s.level ≤ q.2.level := by
  unfold ParkingLot.find_slot at h
  obtain ⟨sec, _, hfs⟩ := searchSections_some h
  obtain ⟨h1, h2, h3, h4, h5⟩ := find_slot_in_section_some hfs
  subst h2
  exact ⟨h1, h3, h4, h5⟩

theorem sec_mem_order (ct : CustomerType) (ev : Bool) (sec : Section) :
    sec ∈ ParkingLot.preferredSections ct ev ++
      ParkingLot.fallbackSections ct ev := by
  cases ct <;> cases ev <;> cases sec <;> decide

theorem find_slot_none_iff {lot : ParkingLot} {vt : VehicleType}
    {ct : CustomerType} {ev : Bool} :
    lot.find_slot vt ct ev = none ↔
      ∀ s ∈ lot.slots, s.vehicle_type = vt → s.is_occupied = true := by
  unfold ParkingLot.find_slot
  rw [searchSections_none]
  constructor
  · intro h s hs hvt
    exact find_slot_in_section_none.mp
      (h s.sect (sec_mem_order ct ev s.sect)) s hs rfl hvt
  · intro h sec _
    exact find_slot_in_section_none.mpr fun s hs _ hvt => h s hs hvt

/-! Claim theorems. -/

/-- C1: `find_slot` searches the sections in exactly the order of the
priority/fallback table for its `(isEV, tier)` pair (the table is
transcribed independently in `specSectionOrder`), the result of the search
is an unoccupied slot of the requested size taken from the first section
that has one, and `None` (`NotAvailable`) is returned exactly when no
unoccupied slot of the requested size exists in any section. -/
theorem claim_C1_priority_fallback_order (lot : ParkingLot)
    (vt : VehicleType) (ct : CustomerType) (ev : Bool) :
    (ParkingLot.preferredSections ct ev ++ ParkingLot.fallbackSections ct ev
        = specSectionOrder ev ct) ∧
    lot.find_slot vt ct ev =
      ParkingLot.searchSections lot.slots vt (specSectionOrder ev ct) ∧
    (∀ (i : Nat) (s : Slot), lot.find_slot vt ct ev = some (i, s) →
      lot.slots[i]? = some s ∧ s.vehicle_type = vt ∧ s.is_occupied = false) ∧
    (lot.find_slot vt ct ev = none ↔
      ∀ s ∈ lot.slots, s.vehicle_type = vt → s.is_occupied = true) := by
  have horder : ParkingLot.preferredSections ct ev ++
      ParkingLot.fallbackSections ct ev = specSectionOrder ev ct := by
    cases ct <;> cases ev <;> rfl
  refine ⟨horder, ?_, ?_, find_slot_none_iff⟩
  · unfold ParkingLot.find_slot
    rw [horder]
  · intro i s h
    obtain ⟨h1, h2, h3, _⟩ := find_slot_some h
    exact ⟨h1, h2, h3⟩

/-- C8: whenever `find_slot` returns a slot, every unoccupied slot of the
requested size in the chosen section (the returned slot's section) has a
level at least as high: the returned slot has the lowest level among the
candidates of its section. -/
theorem claim_C8_level_tie_break (lot : ParkingLot) (vt : VehicleType)
    (ct : CustomerType) (ev : Bool) (i : Nat) (s : Slot)
    (h : lot.find_slot vt ct ev = some (i, s)) :
    ∀ t ∈ lot.slots, t.sect = s.sect → t.vehicle_type = vt →
      t.is_occupied = false → s.level ≤ t.level := by
  intro t ht hsect hvt hocc
  obtain ⟨_, _, _, hmin⟩ := find_slot_some h
  obtain ⟨j, hj⟩ := List.mem_iff_getElem?.mp ht
  exact hmin (j, t) (sectionCandidates_mem.mpr ⟨hj, hsect, hvt, hocc⟩)

/-- C8 witness: on a two-slot pool listing the level-2 slot first,
`find_slot` picks the level-1 slot, and the tie-break theorem applies. -/
theorem claim_C8_witness :
    c8lot.find_slot .SMALL .REGULAR false = some (1, c8low) ∧
      c8low.level ≤ c8high.level := by
  refine ⟨by decide, ?_⟩
  exact claim_C8_level_tie_break c8lot .SMALL .REGULAR false 1 c8low
    (by decide) c8high (by decide) (by decide) (by decide) (by decide)

theorem findTicketIdx_some {slots : List Slot} {t : String} {i : Nat}
    {s : Slot} (h : ParkingLot.findTicketIdx slots t = some (i, s)) :
    slots[i]? = some s ∧ s.is_occupied = true ∧
      ∃ v, s.vehicle = some v ∧ v.ticket_id = t := by
  unfold ParkingLot.findTicketIdx at h
  have hmem := List.mem_of_find?_eq_some h
  have hpred := List.find?_some h
  rw [List.mem_enum_iff_getElem?] at hmem
  refine ⟨hmem, ?_, ?_⟩
  · exact (Bool.and_eq_true _ _).mp hpred |>.1
  · have h2 := (Bool.and_eq_true _ _).mp hpred |>.2
    cases hv : s.vehicle with
    | none => rw [hv] at h2; cases h2
    | some v =>
        rw [hv] at h2
        exact ⟨v, rfl, of_decide_eq_true h2⟩

/-- C9: releasing a ticket that is not bound to any currently occupied
slot (in particular an already-released ticket) returns `None` and leaves
the whole state — every slot, every bound vehicle, the pass registry —
unchanged. -/
theorem claim_C9_idempotent_release (lot : ParkingLot) (t : String)
    (h : ∀ s ∈ lot.slots, s.is_occupied = true →
      s.vehicle.map Vehicle.ticket_id ≠ some t) :
    lot.release_slot t = (none, lot) := by
  have hnone : ParkingLot.findTicketIdx lot.slots t = none := by
    unfold ParkingLot.findTicketIdx
    rw [List.find?_eq_none]
    intro p hp
    rw [List.mem_enum_iff_getElem?] at hp
    have hmem : p.2 ∈ lot.slots := List.mem_iff_getElem?.mpr ⟨p.1, hp⟩
    intro hpred
    obtain ⟨hocc, hv⟩ := (Bool.and_eq_true _ _).mp hpred
    have := h p.2 hmem hocc
    cases hveh : p.2.vehicle with
    | none => rw [hveh] at hv; cases hv
    | some v =>
        rw [hveh] at hv this
        exact this (by simp [of_decide_eq_true hv])
  unfold ParkingLot.release_slot
  rw [hnone]

/-- C9 witness: after allocating `vSmallStd` (ticket `T1`) and releasing
`T1`, no occupied slot holds `T1` any more, and a second release of `T1`
returns `None` with the state unchanged. -/
theorem claim_C9_witness :
    (∀ s ∈ stRel.slots, s.is_occupied = true →
      s.vehicle.map Vehicle.ticket_id ≠ some "T1") ∧
    stRel.release_slot "T1" = (none, stRel) :=
  ⟨by decide, claim_C9_idempotent_release stRel "T1" (by decide)⟩

/-! State preservation of the construction-time slot attributes. -/

theorem alloc_static (lot : ParkingLot) (v : Vehicle) (ev : Bool)
    (now : ℚ) :
    ((lot.allocate_slot v ev now).2).slots.map staticPart =
      lot.slots.map staticPart := by
  unfold ParkingLot.allocate_slot
  cases h : lot.find_slot v.vehicle_type v.customer_type ev with
  | none => rfl
  | some r =>
      obtain ⟨i, s⟩ := r
      obtain ⟨hi, _, hocc, _⟩ := find_slot_some h
      simp only [Slot.allocate, hocc, Bool.false_eq_true, if_false]
      exact map_set_congr staticPart _ i s _ hi rfl

theorem alloc_passes (lot : ParkingLot) (v : Vehicle) (ev : Bool)
    (now : ℚ) :
    ((lot.allocate_slot v ev now).2).vip_passes = lot.vip_passes := by
  unfold ParkingLot.allocate_slot
  cases h : lot.find_slot v.vehicle_type v.customer_type ev with
  | none => rfl
  | some r =>
      obtain ⟨i, s⟩ := r
      unfold Slot.allocate
      cases hocc : s.is_occupied <;> simp [hocc]

theorem rel_static (lot : ParkingLot) (t : String) :
    ((lot.release_slot t).2).slots.map staticPart =
      lot.slots.map staticPart := by
  unfold ParkingLot.release_slot
  cases h : ParkingLot.findTicketIdx lot.slots t with
  | none => rfl
  | some r =>
      obtain ⟨i, s⟩ := r
      obtain ⟨hi, hocc, _⟩ := findTicketIdx_some h
      simp only [Slot.release, hocc, if_true]
      exact map_set_congr staticPart _ i s _ hi rfl

theorem rel_passes (lot : ParkingLot) (t : String) :
    ((lot.release_slot t).2).vip_passes = lot.vip_passes := by
  unfold ParkingLot.release_slot
  cases h : ParkingLot.findTicketIdx lot.slots t with
  | none => rfl
  | some r =>
      obtain ⟨i, s⟩ := r
      rfl

theorem process_exit_state (lot : ParkingLot) (t : String) (now : ℚ) :
    (lot.process_vehicle_exit t now).2 = lot ∨
      (lot.process_vehicle_exit t now).2 = (lot.release_slot t).2 := by
  unfold ParkingLot.process_vehicle_exit ParkingLot.get_slot_by_ticket
  cases h : ParkingLot.findTicketIdx lot.slots t with
  | none => exact Or.inl rfl
  | some r =>
      obtain ⟨i, s⟩ := r
      cases hv : s.vehicle with
      | none => left; simp [hv]
      | some v => right; simp [hv]

theorem exit_static (lot : ParkingLot) (t : String) (now : ℚ) :
    ((lot.process_vehicle_exit t now).2).slots.map staticPart =
      lot.slots.map staticPart := by
  rcases process_exit_state lot t now with h | h
  · rw [h]
  · rw [h]; exact rel_static lot t

theorem exit_passes (lot : ParkingLot) (t : String) (now : ℚ) :
    ((lot.process_vehicle_exit t now).2).vip_passes = lot.vip_passes := by
  rcases process_exit_state lot t now with h | h
  · rw [h]
  · rw [h]; exact rel_passes lot t

theorem reach_static {lot : ParkingLot} (h : Reach lot) :
    lot.slots.map staticPart = ParkingLot.init.slots.map staticPart := by
  induction h with
  | init => rfl
  | alloc lot v ev now _ ih => rw [alloc_static]; exact ih
  | rel lot t _ ih => rw [rel_static]; exact ih
  | exits lot t now _ ih => rw [exit_static]; exact ih

theorem partition_total_eq_of_static {lot lot' : ParkingLot}
    (h : lot.slots.map staticPart = lot'.slots.map staticPart)
    (vt : VehicleType) (sec : Section) :
    lot.partition_total vt sec = lot'.partition_total vt sec := by
  unfold ParkingLot.partition_total
  have key : ∀ l : List Slot,
      (l.filter fun s =>
        decide (s.vehicle_type = vt) && decide (s.sect = sec)).length =
      (l.map staticPart).countP
        (fun u => decide (u.2.2.2 = vt) && decide (u.2.2.1 = sec)) := by
    intro l
    rw [List.countP_map, List.countP_eq_length_filter]
    rfl
  rw [key, key, h]

/-- C2: in every reachable state the slots are exactly the 186 slots fixed
at construction, with unchanged id/level/section/size, and occupied plus
available equals total, for the whole pool and for every
(size, section) partition independently (the partition totals are the
construction-time ones). -/
theorem claim_C2_capacity_invariant (lot : ParkingLot) (h : Reach lot) :
    lot.slots.map staticPart = ParkingLot.init.slots.map staticPart ∧
    lot.total_slots = 186 ∧
    lot.occupied_slots_count + lot.available_slots = lot.total_slots ∧
    (∀ (vt : VehicleType) (sec : Section),
      lot.partition_occupied vt sec + lot.get_available_slots_count vt sec =
        lot.partition_total vt sec) ∧
    (∀ (vt : VehicleType) (sec : Section),
      lot.partition_total vt sec = ParkingLot.init.partition_total vt sec) := by
  have hstatic := reach_static h
  have hlen : lot.slots.length = ParkingLot.init.slots.length := by
    have := congrArg List.length hstatic
    simpa using this
  refine ⟨hstatic, ?_, ?_, ?_, ?_⟩
  · unfold ParkingLot.total_slots
    rw [hlen]
    decide
  · unfold ParkingLot.available_slots ParkingLot.occupied_slots_count
      ParkingLot.total_slots
    have hle := List.length_filter_le (fun s => s.is_occupied) lot.slots
    omega
  · intro vt sec
    unfold ParkingLot.partition_occupied ParkingLot.get_available_slots_count
      ParkingLot.partition_total
    have := length_filter_and_split
      (fun s : Slot => decide (s.vehicle_type = vt) && decide (s.sect = sec))
      (fun s : Slot => s.is_occupied) lot.slots
    simpa [Bool.and_assoc] using this
  · intro vt sec
    exact partition_total_eq_of_static hstatic vt sec

/-! Exclusivity preservation. -/

theorem exclusive_set_unoccupied {lot : ParkingLot} (h : ExclusiveState lot)
    (k : Nat) (s' : Slot) (hocc : s'.is_occupied = false) :
    ExclusiveState { lot with slots := lot.slots.set k s' } := by
  constructor
  · intro k' sk hk' hocck
    rw [List.getElem?_set] at hk'
    by_cases hkk : k = k'
    · rw [if_pos hkk] at hk'
      by_cases hlt : k < lot.slots.length
      · rw [if_pos hlt] at hk'
        obtain rfl : s' = sk := by injection hk'
        rw [hocc] at hocck
        cases hocck
      · rw [if_neg hlt] at hk'
        cases hk'
    · rw [if_neg hkk] at hk'
      exact h.1 k' sk hk' hocck
  · intro i j si sj vi vj hi hj hsi hsj hvi hvj htk
    rw [List.getElem?_set] at hi hj
    by_cases hki : k = i
    · rw [if_pos hki] at hi
      by_cases hlt : k < lot.slots.length
      · rw [if_pos hlt] at hi
        obtain rfl : s' = si := by injection hi
        rw [hocc] at hsi
        cases hsi
      · rw [if_neg hlt] at hi
        cases hi
    · rw [if_neg hki] at hi
      by_cases hkj : k = j
      · rw [if_pos hkj] at hj
        by_cases hlt : k < lot.slots.length
        · rw [if_pos hlt] at hj
          obtain rfl : s' = sj := by injection hj
          rw [hocc] at hsj
          cases hsj
        · rw [if_neg hlt] at hj
          cases hj
      · rw [if_neg hkj] at hj
        exact h.2 i j si sj vi vj hi hj hsi hsj hvi hvj htk

theorem exclusive_release {lot : ParkingLot} (h : ExclusiveState lot)
    (t : String) : ExclusiveState (lot.release_slot t).2 := by
  unfold ParkingLot.release_slot
  cases hf : ParkingLot.findTicketIdx lot.slots t with
  | none => exact h
  | some r =>
      obtain ⟨k, s⟩ := r
      obtain ⟨_, hocc, _⟩ := findTicketIdx_some hf
      simp only [Slot.release, hocc, if_true]
      exact exclusive_set_unoccupied h k _ rfl

theorem exclusive_alloc {lot : ParkingLot} (h : ExclusiveState lot)
    (v : Vehicle) (ev : Bool) (now : ℚ) (hfresh : freshTicket lot v) :
    ExclusiveState (lot.allocate_slot v ev now).2 := by
  unfold ParkingLot.allocate_slot
  cases hfind : lot.find_slot v.vehicle_type v.customer_type ev with
  | none => exact h
  | some r =>
      obtain ⟨i, s⟩ := r
      obtain ⟨hi, _, hocc, _⟩ := find_slot_some hfind
      obtain ⟨hlt, _⟩ := List.getElem?_eq_some.mp hi
      simp only [Slot.allocate, hocc, Bool.false_eq_true, if_false]
      constructor
      · intro k' sk hk' hocck
        rw [List.getElem?_set] at hk'
        by_cases hik : i = k'
        · rw [if_pos hik] at hk'
          rw [if_pos (hik ▸ hlt)] at hk'
          obtain rfl : _ = sk := by injection hk'
          simp
        · rw [if_neg hik] at hk'
          exact h.1 k' sk hk' hocck
      · intro i' j' si sj vi vj hi' hj' hsi hsj hvi hvj htk
        rw [List.getElem?_set] at hi' hj'
        by_cases hii : i = i' <;> by_cases hij : i = j'
        · rw [← hii, ← hij]
        · rw [if_pos hii, if_pos (hii ▸ hlt)] at hi'
          rw [if_neg hij] at hj'
          obtain rfl : _ = si := by injection hi'
          have hvi' : vi = { v with allocation_time := some now } := by
            injection hvi.symm
          exfalso
          refine hfresh sj (List.mem_iff_getElem?.mpr ⟨j', hj'⟩) hsj ?_
          rw [hvj]
          show some vj.ticket_id = some v.ticket_id
          rw [← htk, hvi']
        · rw [if_pos hij, if_pos (hij ▸ hlt)] at hj'
          rw [if_neg hii] at hi'
          obtain rfl : _ = sj := by injection hj'
          have hvj' : vj = { v with allocation_time := some now } := by
            injection hvj.symm
          exfalso
          refine hfresh si (List.mem_iff_getElem?.mpr ⟨i', hi'⟩) hsi ?_
          rw [hvi]
          show some vi.ticket_id = some v.ticket_id
          rw [htk, hvj']
        · rw [if_neg hii] at hi'
          rw [if_neg hij] at hj'
          exact h.2 i' j' si sj vi vj hi' hj' hsi hsj hvi hvj htk

/-- C3 counterexample: under the claim's own reachability (arbitrary
`allocate_slot`/`release_slot` sequences), passing the *same* request
record (ticket `T1`) to `allocate_slot` twice produces a reachable state
in which two occupied slots both reference the record with ticket `T1`,
so a record can be bound to two occupied slots simultaneously. -/
theorem claim_C3_counterexample :
    Reach stA2 ∧ boundCount stA2 "T1" = 2 := by
  constructor
  · have h1 : Reach stA1 := by
      unfold stA1
      exact Reach.alloc _ _ _ _ Reach.init
    unfold stA2
    exact Reach.alloc _ _ _ _ h1
  · decide

/-- C3 (amended): provided every `allocate_slot` call is given a request
record not already bound to an occupied slot (each request constructs a
fresh record with a fresh uuid ticket), then in every reachable state no
slot binds more than one record (structurally, a slot holds at most one
record) and no record is referenced by more than one occupied slot. -/
theorem claim_C3_exclusivity (lot : ParkingLot) (h : ReachFresh lot) :
    ExclusiveState lot := by
  induction h with
  | init =>
      have hfree : ∀ s ∈ ParkingLot.init.slots, s.is_occupied = false := by
        decide
      constructor
      · intro k sk hk hocc
        rw [hfree sk (List.mem_iff_getElem?.mpr ⟨k, hk⟩)] at hocc
        cases hocc
      · intro i j si sj vi vj hi hj hsi hsj _ _ _
        rw [hfree si (List.mem_iff_getElem?.mpr ⟨i, hi⟩)] at hsi
        cases hsi
  | alloc lot v ev now hfresh _ ih => exact exclusive_alloc ih v ev now hfresh
  | rel lot t _ ih => exact exclusive_release ih t
  | exits lot t now _ ih =>
      rcases process_exit_state lot t now with he | he
      · rw [he]; exact ih
      · rw [he]; exact exclusive_release ih t

/-- C3 witness: one fresh allocation from the empty lot satisfies the
freshness side condition, and the resulting state is exclusive. -/
theorem claim_C3_witness : ExclusiveState stA1 :=
  claim_C3_exclusivity stA1
    (by
      unfold stA1
      exact ReachFresh.alloc _ _ _ _ (by unfold freshTicket; decide)
        ReachFresh.init)

/-- C2 witness: the invariant holds in the state reached by one
allocation from the fresh lot. -/
theorem claim_C2_witness :
    stA1.slots.map staticPart = ParkingLot.init.slots.map staticPart ∧
    stA1.total_slots = 186 ∧
    stA1.occupied_slots_count + stA1.available_slots = stA1.total_slots ∧
    (∀ (vt : VehicleType) (sec : Section),
      stA1.partition_occupied vt sec + stA1.get_available_slots_count vt sec =
        stA1.partition_total vt sec) ∧
    (∀ (vt : VehicleType) (sec : Section),
      stA1.partition_total vt sec = ParkingLot.init.partition_total vt sec) :=
  claim_C2_capacity_invariant stA1
    (by unfold stA1; exact Reach.alloc _ _ _ _ Reach.init)

/-! Fee computation. -/

theorem round2_cents (m : ℤ) (q : ℚ) (h : q * 100 = (m : ℚ)) :
    round2 q = q := by
  unfold round2
  rw [h]
  have hf : Int.floor ((m : ℚ) + 1/2) = m := by
    rw [Int.floor_eq_iff]
    constructor <;> linarith
  rw [hf, ← h]
  ring

theorem monthly_medium :
    ParkingRules.MONTHLY_MEMBERSHIP_RATES .MEDIUM = 2100 := by
  unfold ParkingRules.MONTHLY_MEMBERSHIP_RATES ParkingRules.DAILY_RATES
  rw [round2_cents 210000 _ (by norm_num)]
  norm_num

/-- C4 counterexample: for a Standard-tier Medium vehicle allocated at
time 0 and released at time 30 (30 elapsed hours, limit 24), the code
charges `100 × 1.25 + min(6 × 25, 500) = 275` — the fractional-day base
`100 × (30/24)` — not the claimed `100 × 2 + min(6 × 25, 500) = 350` with
days rounded up. -/
theorem claim_C4_counterexample :
    c4slot.calculate_fee 30 = 275 ∧
      c4slot.calculate_fee 30 ≠ 100 * 2 + min ((6:ℚ) * 25) 500 := by
  have h : c4slot.calculate_fee 30 = 275 := by
    simp only [Slot.calculate_fee, c4slot, c4vehicle, Slot.passActive]
    norm_num [ParkingRules.TIME_LIMITS, ParkingRules.DAILY_RATES,
      ParkingRules.penalty_per_hour, ParkingRules.max_overstay_penalty]
    rw [if_neg (Option.some_ne_none (0:ℚ))]
    rw [if_neg (by decide : ¬(CustomerType.REGULAR = CustomerType.VIP))]
    rw [round2_cents 27500 _ (by norm_num)]
    norm_num
  refine ⟨h, ?_⟩
  rw [h]
  rw [min_eq_left (by norm_num)]
  norm_num

/-- C4 (amended): for a Standard-tier Medium vehicle released after
exactly 30 elapsed hours (time limit 24 h), `calculate_fee` charges the
daily rate times the *fractional* number of days used
(`max(1, 30/24) = 5/4`, minimum one billable day — not rounded up to whole
days) plus the overstay surcharge `min(6 × 25, 500)`:
`100 × (5/4) + 150 = 275`. -/
theorem claim_C4_overstay_fee (t0 : ℚ) (v : Vehicle) (s : Slot)
    (hv : v.customer_type = .REGULAR) (hm : v.vehicle_type = .MEDIUM)
    (hocc : s.is_occupied = true) (ht : s.allocation_time = some t0)
    (hveh : s.vehicle = some v) :
    s.calculate_fee (t0 + 30) =
      100 * max 1 ((30:ℚ)/24) + min ((6:ℚ) * 25) 500 := by
  have hd : t0 + 30 - t0 = (30 : ℚ) := by ring
  simp only [Slot.calculate_fee, hocc, ht, hveh, hv, hm, Slot.passActive,
    ParkingRules.TIME_LIMITS, ParkingRules.DAILY_RATES,
    ParkingRules.penalty_per_hour, ParkingRules.max_overstay_penalty, hd]
  norm_num
  rw [if_neg (Option.some_ne_none t0)]
  rw [if_neg (show ¬(CustomerType.REGULAR = CustomerType.VIP ∧
    (match v.vip_pass_expiry with
      | some e => decide (t0 + 30 < e)
      | none => false) = true) from by simp)]
  rw [if_neg (by decide : ¬(CustomerType.REGULAR = CustomerType.VIP))]
  rw [round2_cents 27500 _ (by norm_num)]
  norm_num

/-- C4 witness: the amended fee theorem applied to the concrete
Standard/Medium slot allocated at time 0 and released at time 0 + 30. -/
theorem claim_C4_witness :
    c4slot.calculate_fee (0 + 30) =
      100 * max 1 ((30:ℚ)/24) + min ((6:ℚ) * 25) 500 :=
  claim_C4_overstay_fee 0 c4vehicle c4slot (by decide) (by decide)
    (by decide) (by decide) (by decide)

/-- C7 counterexample: `c7vehicle`'s pass (expiry 1) was active at its
allocation time 0, yet `calculate_fee` at release time 2 — after the pass
expired — charges the flat monthly membership rate 2100, not 0: the code
tests pass activity at fee-computation time, not at allocation time. -/
theorem claim_C7_counterexample :
    ((0:ℚ) < 1) ∧ c7slot.calculate_fee 2 = 2100 ∧
      c7slot.calculate_fee 2 ≠ 0 := by
  have h : c7slot.calculate_fee 2 = 2100 := by
    simp only [Slot.calculate_fee, c7slot, c7vehicle, Slot.passActive]
    norm_num [ParkingRules.TIME_LIMITS]
    rw [monthly_medium]
    rw [round2_cents 210000 _ (by norm_num)]
    rw [if_neg (Option.some_ne_none (0:ℚ))]
  exact ⟨by norm_num, h, by rw [h]; norm_num⟩

/-- C7 (amended): a Member-tier allocation yields fee 0 on release
provided the pass is still active at the time the fee is computed
(release), and the elapsed time is within the Member time limit of 720
hours (which always holds when the pass protecting the stay was created at
or after allocation, since a pass lasts exactly 720 hours). -/
theorem claim_C7_membership_exemption (v : Vehicle) (s : Slot)
    (t0 e now : ℚ) (hv : v.customer_type = .VIP)
    (hp : v.vip_pass_expiry = some e) (hocc : s.is_occupied = true)
    (ht : s.allocation_time = some t0) (hveh : s.vehicle = some v)
    (hactive : now < e) (hdur : now - t0 ≤ 720) :
    s.calculate_fee now = 0 := by
  have hnp : ¬(now - t0 > ParkingRules.TIME_LIMITS CustomerType.VIP) := by
    simp only [ParkingRules.TIME_LIMITS]
    linarith
  simp only [Slot.calculate_fee, hocc, ht, hveh, hv, Slot.passActive, hp,
    hactive, hnp]
  norm_num [hactive]
  rw [round2_cents 0 _ (by norm_num)]
  exact fun _ => rfl

/-- C7 witness: the amended theorem applied to a Member slot allocated at
time 0 with pass expiry 2, released at time 1 while the pass is active. -/
theorem claim_C7_witness : c7wSlot.calculate_fee 1 = 0 :=
  claim_C7_membership_exemption c7wVehicle c7wSlot 0 2 1 (by decide)
    (by decide) (by decide) (by decide) (by decide) (by decide)
    (by simp)

/-- C5 (code bug): `c5vehicle` is at the re-entry maximum (3) and its last
re-entry, at time 0, lies more than the 24-hour window before the current
time 25; the claim (and the rule table's "maximum re-entries per day")
says the counter is reset before the maximum is evaluated, so the vehicle
is let in — but `can_re_enter` tests the maximum first and returns
`False` without ever reaching the reset, leaving the counter at 3. -/
theorem claim_C5_reentry_reset_bug :
    ((25:ℚ) - 0 > ParkingRules.re_entry_window) ∧
    c5vehicle.re_entry_count = ParkingRules.max_re_entries ∧
    c5vehicle.is_suspended = false ∧
    (c5vehicle.can_re_enter 25).1 = false ∧
    (c5vehicle.can_re_enter 25).2.re_entry_count = 3 := by
  refine ⟨?_, rfl, rfl, rfl, rfl⟩
  norm_num [ParkingRules.re_entry_window]

theorem calculate_fee_of_unoccupied (s : Slot) (now : ℚ)
    (h : s.is_occupied = false ∨ s.allocation_time = none) :
    s.calculate_fee now = 0 := by
  unfold Slot.calculate_fee
  rw [if_pos h]

/-- C10: `calculate_fee` returns exactly 0 for a slot that is unoccupied
or has no allocation timestamp (even though the timestamp is retained
after release); and `process_vehicle_exit` computes its `base_fee` on the
still-occupied slot before calling `release_slot`, after which the slot at
the same position is unoccupied and yields fee 0 at every instant. -/
theorem claim_C10_fee_zero_after_release :
    (∀ (s : Slot) (now : ℚ),
      s.is_occupied = false ∨ s.allocation_time = none →
        s.calculate_fee now = 0) ∧
    (∀ (lot : ParkingLot) (t : String) (now : ℚ) (i : Nat) (s : Slot),
      ParkingLot.findTicketIdx lot.slots t = some (i, s) →
      s.vehicle ≠ none →
        ((lot.process_vehicle_exit t now).1.map ExitResult.base_fee =
          some (s.calculate_fee now)) ∧
        ∀ now2 : ℚ,
          ((lot.process_vehicle_exit t now).2.slots[i]?.map
            fun s2 => s2.calculate_fee now2) = some 0) := by
  constructor
  · exact calculate_fee_of_unoccupied
  · intro lot t now i s hf hvne
    cases hv : s.vehicle with
    | none => exact absurd hv hvne
    | some v =>
        obtain ⟨hi, hocc, _⟩ := findTicketIdx_some hf
        obtain ⟨hlt, _⟩ := List.getElem?_eq_some.mp hi
        constructor
        · unfold ParkingLot.process_vehicle_exit ParkingLot.get_slot_by_ticket
          rw [hf]
          simp [hv]
        · intro now2
          unfold ParkingLot.process_vehicle_exit ParkingLot.get_slot_by_ticket
          rw [hf]
          simp only [hv]
          unfold ParkingLot.release_slot
          rw [hf]
          simp only [Slot.release, hocc, if_true]
          rw [List.getElem?_set, if_pos rfl, if_pos hlt]
          show some (Slot.calculate_fee
            { s with vehicle := none, is_occupied := false } now2) = some 0
          rw [calculate_fee_of_unoccupied _ _ (Or.inl rfl)]

/-- C10 witness: in the state after allocating `vSmallStd` (ticket `T1`,
slot position 0), exit processing reports the pre-release fee and the
released slot computes fee 0 afterwards. -/
theorem claim_C10_witness :
    ParkingLot.findTicketIdx stA1.slots "T1" = some (0, c10slot) ∧
    ((stA1.process_vehicle_exit "T1" 8).1.map ExitResult.base_fee =
      some (c10slot.calculate_fee 8)) ∧
    ∀ now2 : ℚ,
      ((stA1.process_vehicle_exit "T1" 8).2.slots[0]?.map
        fun s2 => s2.calculate_fee now2) = some 0 := by
  have hf : ParkingLot.findTicketIdx stA1.slots "T1" = some (0, c10slot) := by
    decide
  have hv : c10slot.vehicle ≠ none := by decide
  obtain ⟨h1, h2⟩ :=
    claim_C10_fee_zero_after_release.2 stA1 "T1" 8 0 c10slot hf hv
  exact ⟨hf, h1, h2⟩

/-! Pass-registry dictionary lemmas. -/

theorem lookup_pass_map_ne (ps : List (String × ℚ)) (p x : String) (e : ℚ)
    (hne : x ≠ p) :
    ParkingLot.lookup_pass (ps.map fun q => if q.1 == p then (p, e) else q) x
      = ParkingLot.lookup_pass ps x := by
  induction ps with
  | nil => rfl
  | cons q ps ih =>
      by_cases hq : q.1 = p
      · have h1 : (((if q.1 == p then (p, e) else q) : String × ℚ).1 == x)
            = false := by
          simp [hq, Ne.symm hne]
        have h2 : (q.1 == x) = false := by
          simp [hq, Ne.symm hne]
        simp only [ParkingLot.lookup_pass, List.map_cons, List.find?_cons,
          h1, h2] at ih ⊢
        exact ih
      · have hqb : (q.1 == p) = false := beq_eq_false_iff_ne.mpr hq
        cases hqx : (q.1 == x) with
        | true =>
            simp only [ParkingLot.lookup_pass, List.map_cons,
              List.find?_cons, hqb, Bool.false_eq_true, if_false, hqx]
        | false =>
            simp only [ParkingLot.lookup_pass, List.map_cons,
              List.find?_cons, hqb, Bool.false_eq_true, if_false, hqx]
              at ih ⊢
            exact ih

theorem lookup_pass_map_self (ps : List (String × ℚ)) (p : String) (e : ℚ)
    (hany : ps.any (fun q => q.1 == p) = true) :
    ParkingLot.lookup_pass (ps.map fun q => if q.1 == p then (p, e) else q) p
      = some e := by
  induction ps with
  | nil => cases hany
  | cons q ps ih =>
      rw [List.any_cons] at hany
      cases hq : (q.1 == p) with
      | true =>
          have h1 : (((if q.1 == p then (p, e) else q) : String × ℚ).1 == p)
              = true := by simp [hq]
          simp only [ParkingLot.lookup_pass, List.map_cons, List.find?_cons,
            h1]
          rw [if_pos hq]
          rfl
      | false =>
          rw [hq, Bool.false_or] at hany
          have h1 : (((if q.1 == p then (p, e) else q) : String × ℚ).1 == p)
              = false := by simp [hq]
          simp only [ParkingLot.lookup_pass, List.map_cons, List.find?_cons,
            h1] at ih ⊢
          exact ih hany

theorem lookup_pass_append_self (ps : List (String × ℚ)) (p : String)
    (e : ℚ) (hnone : ps.any (fun q => q.1 == p) = false) :
    ParkingLot.lookup_pass (ps ++ [(p, e)]) p = some e := by
  induction ps with
  | nil => simp [ParkingLot.lookup_pass, List.find?_cons]
  | cons q ps ih =>
      rw [List.any_cons] at hnone
      have hq : (q.1 == p) = false := by
        cases h : (q.1 == p) with
        | true => rw [h, Bool.true_or] at hnone; cases hnone
        | false => rfl
      rw [hq, Bool.false_or] at hnone
      simp only [ParkingLot.lookup_pass, List.cons_append, List.find?_cons,
        hq] at ih ⊢
      exact ih hnone

theorem lookup_pass_append_ne (ps : List (String × ℚ)) (p x : String)
    (e : ℚ) (hne : x ≠ p) :
    ParkingLot.lookup_pass (ps ++ [(p, e)]) x =
      ParkingLot.lookup_pass ps x := by
  induction ps with
  | nil =>
      have h1 : ((p, e).1 == x) = false := beq_eq_false_iff_ne.mpr
        (Ne.symm hne)
      simp [ParkingLot.lookup_pass, List.find?_cons, h1]
  | cons q ps ih =>
      cases hqx : (q.1 == x) with
      | true =>
          simp only [ParkingLot.lookup_pass, List.cons_append,
            List.find?_cons, hqx]
      | false =>
          simp only [ParkingLot.lookup_pass, List.cons_append,
            List.find?_cons, hqx] at ih ⊢
          exact ih

theorem lookup_set_pass (ps : List (String × ℚ)) (p x : String) (e : ℚ) :
    ParkingLot.lookup_pass (ParkingLot.set_pass ps p e) x =
      if x = p then some e else ParkingLot.lookup_pass ps x := by
  unfold ParkingLot.set_pass
  by_cases hany : ps.any (fun q => q.1 == p) = true
  · rw [if_pos hany]
    by_cases hx : x = p
    · subst hx
      rw [if_pos rfl]
      exact lookup_pass_map_self ps x e hany
    · rw [if_neg hx]
      exact lookup_pass_map_ne ps p x e hx
  · rw [if_neg hany]
    by_cases hx : x = p
    · subst hx
      rw [if_pos rfl]
      exact lookup_pass_append_self ps x e (Bool.not_eq_true _ |>.mp hany)
    · rw [if_neg hx]
      exact lookup_pass_append_ne ps p x e hx

/-- C6: on every successful Member-tier allocation for an identifier with
no pass or an expired one, the registry afterwards maps that identifier to
expiry `now + 720` hours (30 days); no other identifier's entry changes,
and no entry is ever removed (a vanished entry would have had to be absent
before).  The create/refresh step itself lives in the application layer
and is modelled from the spec (`refresh_vip_pass`, `member_allocate`). -/
theorem claim_C6_pass_registry (lot : ParkingLot) (v : Vehicle) (ev : Bool)
    (now : ℚ) (hv : v.customer_type = .VIP)
    (hpass : ParkingLot.lookup_pass lot.vip_passes v.license_plate = none ∨
      ∃ e, ParkingLot.lookup_pass lot.vip_passes v.license_plate = some e ∧
        e ≤ now)
    (hsucc : (lot.member_allocate v ev now).1 ≠ none) :
    (ParkingLot.lookup_pass (lot.member_allocate v ev now).2.vip_passes
        v.license_plate = some (now + ParkingLot.MEMBERSHIP_DURATION)) ∧
    (∀ p, ParkingLot.lookup_pass (lot.member_allocate v ev now).2.vip_passes
        p = none → ParkingLot.lookup_pass lot.vip_passes p = none) ∧
    (∀ p, p ≠ v.license_plate →
      ParkingLot.lookup_pass (lot.member_allocate v ev now).2.vip_passes p =
        ParkingLot.lookup_pass lot.vip_passes p) := by
  rcases halloc : lot.allocate_slot v ev now with ⟨r, lot'⟩
  have hpasses : lot'.vip_passes = lot.vip_passes := by
    have := alloc_passes lot v ev now
    rw [halloc] at this
    exact this
  rcases r with _ | r
  · exfalso
    apply hsucc
    unfold ParkingLot.member_allocate
    rw [halloc]
  · have hmem : (lot.member_allocate v ev now).2 =
        ParkingLot.refresh_vip_pass lot' v.license_plate now := by
      unfold ParkingLot.member_allocate
      rw [halloc]
      show (if v.customer_type = CustomerType.VIP then
          (some r, lot'.refresh_vip_pass v.license_plate now)
        else (some r, lot')).2 = _
      rw [if_pos hv]
    rw [hmem]
    have hset : (ParkingLot.refresh_vip_pass lot' v.license_plate now).vip_passes
        = ParkingLot.set_pass lot.vip_passes v.license_plate
          (now + ParkingLot.MEMBERSHIP_DURATION) := by
      unfold ParkingLot.refresh_vip_pass
      rw [hpasses]
      rcases hpass with hnone | ⟨e, hsome, hle⟩
      · rw [hnone]
      · rw [hsome]
        show (if now < e then lot'
          else { lot' with
            vip_passes := ParkingLot.set_pass lot.vip_passes v.license_plate
              (now + ParkingLot.MEMBERSHIP_DURATION) }).vip_passes = _
        rw [if_neg (not_lt.mpr hle)]
    rw [hset]
    refine ⟨?_, ?_, ?_⟩
    · rw [lookup_set_pass, if_pos rfl]
    · intro p hp
      rw [lookup_set_pass] at hp
      by_cases hpx : p = v.license_plate
      · rw [if_pos hpx] at hp
        cases hp
      · rw [if_neg hpx] at hp
        exact hp
    · intro p hpx
      rw [lookup_set_pass, if_neg hpx]

/-- C6 witness: a Member allocation on the fresh lot (empty registry, so
no pass exists) succeeds and registers expiry `100 + 720`. -/
theorem claim_C6_witness :
    ParkingLot.lookup_pass ParkingLot.init.vip_passes
      c6vehicle.license_plate = none ∧
    (ParkingLot.init.member_allocate c6vehicle false 100).1 ≠ none ∧
    ParkingLot.lookup_pass
      (ParkingLot.init.member_allocate c6vehicle false 100).2.vip_passes
      c6vehicle.license_plate =
        some (100 + ParkingLot.MEMBERSHIP_DURATION) := by
  have h1 : ParkingLot.lookup_pass ParkingLot.init.vip_passes
      c6vehicle.license_plate = none := rfl
  have h2 : (ParkingLot.init.member_allocate c6vehicle false 100).1 ≠ none :=
    by decide
  exact ⟨h1, h2,
    (claim_C6_pass_registry ParkingLot.init c6vehicle false 100 (by decide)
      (Or.inl h1) h2).1⟩

end AutoParq
